import Mathlib

/-!
Verification development for the colour-science repository fragment consisting of
`colour/dataset/colourspaces/rgb/alexa_wide_gamut_rgb.py` and
`colour/models/rgb/datasets/blackmagic.py`.

Numeric modelling conventions:
* Python float literals are embedded as exact rationals (`ℚ`); arithmetic on
  companded values is idealised as real arithmetic (`ℝ`), with `math.log10`
  embedded as `Real.logb 10` and `math.pow 10` as `Real.rpow 10`.
* A Python `dict` literal is embedded as the list of its key/value pairs in
  source order; `dict.get` returns the value of the *last* pair carrying the
  requested key (later duplicate keys overwrite earlier ones, exactly as a
  Python `dict` literal behaves).
* The failure behaviour of the chained `.get` lookups is embedded with an
  explicit error type: `d.get(k)` on a missing key yields `None`, so the
  following `.get` raises `AttributeError`, while tuple-unpacking `None`
  raises `TypeError`.  A `LookupError` (e.g. `KeyError`) is never raised by
  `.get`.  The constructor `PyError.lookupError` is included so that the
  specified error kind is expressible.
-/

namespace Colour

/-- Error kinds observable from the Python code paths under study.
`attributeError` models `AttributeError` (calling `.get` on `None`),
`typeError` models `TypeError` (tuple-unpacking `None`), and `lookupError`
models the `LookupError` family (`KeyError`, `IndexError`), which the
specification names but which `dict.get` chains never raise. -/
inductive PyError where
  | attributeError : PyError
  | typeError : PyError
  | lookupError : PyError
deriving DecidableEq

/-- Embedding of a Python `dict` built from a literal list of key/value pairs:
`dictGet entries k` is `dict(entries).get(k)`, i.e. the value of the last pair
whose key is `k`, if any (later duplicates overwrite earlier ones). -/
def dictGet {κ α : Type} [DecidableEq κ] (entries : List (κ × α)) (k : κ) : Option α :=
  (entries.reverse.find? (fun e => decide (e.1 = k))).map Prod.snd

/-- The 8-tuple of Log C conversion coefficients
`(cut, a, b, c, d, e, f, ecutf)` stored in the conversion data table. -/
structure LogCParams where
  cut : ℚ
  a : ℚ
  b : ℚ
  c : ℚ
  d : ℚ
  e : ℚ
  f : ℚ
  ecutf : ℚ
deriving DecidableEq

/-- First `"SUP 3.x"` block of `ALEXA_LOG_C_CURVE_CONVERSION_DATA`
(source lines 73-107): methods `"Normalised Sensor Signal"` and
`"Linear Scene Exposure Factor"`. -/
def supThreeFirstBlock : List (String × List (ℕ × LogCParams)) :=
  [("Normalised Sensor Signal",
    [(160, ⟨0.004680, 40.0, -0.076072, 0.269036, 0.381991, 42.062665, -0.071569, 0.125266⟩),
     (200, ⟨0.004597, 50.0, -0.118740, 0.266007, 0.382478, 51.986387, -0.110339, 0.128643⟩),
     (250, ⟨0.004518, 62.5, -0.171260, 0.262978, 0.382966, 64.243053, -0.158224, 0.132021⟩),
     (320, ⟨0.004436, 80.0, -0.243808, 0.259627, 0.383508, 81.183335, -0.224409, 0.135761⟩),
     (400, ⟨0.004369, 100.0, -0.325820, 0.256598, 0.383999, 100.295280, -0.299079, 0.139142⟩),
     (500, ⟨0.004309, 125.0, -0.427461, 0.253569, 0.384493, 123.889239, -0.391261, 0.142526⟩),
     (640, ⟨0.004249, 160.0, -0.568709, 0.250219, 0.385040, 156.482680, -0.518605, 0.146271⟩),
     (800, ⟨0.004201, 200.0, -0.729169, 0.247190, 0.385537, 193.235573, -0.662201, 0.149658⟩),
     (1000, ⟨0.004160, 250.0, -0.928805, 0.244161, 0.386036, 238.584745, -0.839385, 0.153047⟩),
     (1280, ⟨0.004120, 320.0, -1.207168, 0.240810, 0.386590, 301.197380, -1.084020, 0.156799⟩),
     (1600, ⟨0.004088, 400.0, -1.524256, 0.237781, 0.387093, 371.761171, -1.359723, 0.160192⟩)]),
   ("Linear Scene Exposure Factor",
    [(160, ⟨0.005561, 5.555556, 0.080216, 0.269036, 0.381991, 5.842037, 0.092778, 0.125266⟩),
     (200, ⟨0.006208, 5.555556, 0.076621, 0.266007, 0.382478, 5.776265, 0.092782, 0.128643⟩),
     (250, ⟨0.006871, 5.555556, 0.072941, 0.262978, 0.382966, 5.710494, 0.092786, 0.132021⟩),
     (320, ⟨0.007622, 5.555556, 0.068768, 0.259627, 0.383508, 5.637732, 0.092791, 0.135761⟩),
     (400, ⟨0.008318, 5.555556, 0.064901, 0.256598, 0.383999, 5.571960, 0.092795, 0.139142⟩),
     (500, ⟨0.009031, 5.555556, 0.060939, 0.253569, 0.384493, 5.506188, 0.092800, 0.142526⟩),
     (640, ⟨0.009840, 5.555556, 0.056443, 0.250219, 0.385040, 5.433426, 0.092805, 0.146271⟩),
     (800, ⟨0.010591, 5.555556, 0.052272, 0.247190, 0.385537, 5.367655, 0.092809, 0.149658⟩),
     (1000, ⟨0.011361, 5.555556, 0.047996, 0.244161, 0.386036, 5.301883, 0.092814, 0.153047⟩),
     (1280, ⟨0.012235, 5.555556, 0.043137, 0.240810, 0.386590, 5.229121, 0.092819, 0.156799⟩),
     (1600, ⟨0.013047, 5.555556, 0.038625, 0.237781, 0.387093, 5.163350, 0.092824, 0.16019⟩)])]

/-- `"Normalised Sensor Signal"` entries of the second `"SUP 3.x"` block
(source lines 108-137). -/
def supThreeSecondNSS : List (ℕ × LogCParams) :=
  [(160, ⟨0.003907, 36.439829, -0.053366, 0.269035, 0.391007, 45.593473, -0.069772, 0.10836⟩),
   (200, ⟨0.003907, 45.549786, -0.088959, 0.266007, 0.391007, 55.709581, -0.106114, 0.11154⟩),
   (250, ⟨0.003907, 56.937232, -0.133449, 0.262978, 0.391007, 67.887153, -0.150510, 0.11472⟩),
   (320, ⟨0.003907, 72.879657, -0.195737, 0.259627, 0.391007, 84.167616, -0.210597, 0.11824⟩),
   (400, ⟨0.003907, 91.099572, -0.266922, 0.256598, 0.391007, 101.811426, -0.276349, 0.12142⟩),
   (500, ⟨0.003907, 113.874465, -0.355903, 0.253569, 0.391007, 122.608379, -0.354421, 0.12461⟩),
   (640, ⟨0.003907, 145.759315, -0.480477, 0.250218, 0.391007, 149.703304, -0.456760, 0.12813⟩),
   (800, ⟨0.003907, 182.199144, -0.622848, 0.247189, 0.391007, 178.216873, -0.564981, 0.13131⟩),
   (1000, ⟨0.003907, 227.748930, -0.800811, 0.244161, 0.391007, 210.785040, -0.689043, 0.13449⟩),
   (1280, ⟨0.003907, 291.518630, -1.049959, 0.240810, 0.391007, 251.689459, -0.845336, 0.13801⟩),
   (1600, ⟨0.003907, 364.398287, -1.334700, 0.237781, 0.391007, 293.073575, -1.003841, 0.14119⟩)]

/-- `"Linear Scene Exposure Factor"` entries of the second `"SUP 3.x"` block
(source lines 138-160). -/
def supThreeSecondLSEF : List (ℕ × LogCParams) :=
  [(160, ⟨0.000000, 5.061087, 0.089004, 0.269035, 0.391007, 6.332427, 0.108361, 0.108361⟩),
   (200, ⟨0.000000, 5.061087, 0.089004, 0.266007, 0.391007, 6.189953, 0.111543, 0.111543⟩),
   (250, ⟨0.000000, 5.061087, 0.089004, 0.262978, 0.391007, 6.034414, 0.114725, 0.114725⟩),
   (320, ⟨0.000000, 5.061087, 0.089004, 0.259627, 0.391007, 5.844973, 0.118246, 0.118246⟩),
   (400, ⟨0.000000, 5.061087, 0.089004, 0.256598, 0.391007, 5.656190, 0.121428, 0.121428⟩),
   (500, ⟨0.000000, 5.061087, 0.089004, 0.253569, 0.391007, 5.449261, 0.124610, 0.124610⟩),
   (640, ⟨0.000000, 5.061087, 0.089004, 0.250218, 0.391007, 5.198031, 0.128130, 0.128130⟩),
   (800, ⟨0.000000, 5.061087, 0.089004, 0.247189, 0.391007, 4.950469, 0.131313, 0.131313⟩),
   (1000, ⟨0.000000, 5.061087, 0.089004, 0.244161, 0.391007, 4.684112, 0.134495, 0.134495⟩),
   (1280, ⟨0.000000, 5.061087, 0.089004, 0.240810, 0.391007, 4.369609, 0.138015, 0.138015⟩),
   (1600, ⟨0.000000, 5.061087, 0.089004, 0.237781, 0.391007, 4.070466, 0.141197, 0.14119⟩)]

/-- Second `"SUP 3.x"` block of `ALEXA_LOG_C_CURVE_CONVERSION_DATA`
(source lines 108-160). -/
def supThreeSecondBlock : List (String × List (ℕ × LogCParams)) :=
  [("Normalised Sensor Signal", supThreeSecondNSS),
   ("Linear Scene Exposure Factor", supThreeSecondLSEF)]

/-- The `ALEXA_LOG_C_CURVE_CONVERSION_DATA` dict literal (source lines 73-160).
The firmware key `"SUP 3.x"` is written twice, exactly as in the source. -/
def ALEXA_LOG_C_CURVE_CONVERSION_DATA :
    List (String × List (String × List (ℕ × LogCParams))) :=
  [("SUP 3.x", supThreeFirstBlock),
   ("SUP 3.x", supThreeSecondBlock)]

/-- The chained coefficient lookup
`ALEXA_LOG_C_CURVE_CONVERSION_DATA.get(firmware).get(method).get(EI)` together
with the tuple unpacking, with the Python failure modes made explicit:
a missing firmware or method leaves `None`, on which the next `.get` raises
`AttributeError`; a missing exposure index leaves `None`, which the unpacking
`cut, a, b, c, d, e, f, ecutf = ...` rejects with `TypeError`. -/
def logCConversionLookup (firmware method : String) (EI : ℕ) :
    Except PyError LogCParams :=
  match dictGet ALEXA_LOG_C_CURVE_CONVERSION_DATA firmware with
  | none => .error .attributeError
  | some methods =>
    match dictGet methods method with
    | none => .error .attributeError
    | some eis =>
      match dictGet eis EI with
      | none => .error .typeError
      | some p => .ok p

/-- The companding branch of `__alexa_wide_gamut_rgb_transfer_function`
(source line 194): `c * math.log10(a * value + b) + d if value > cut else
ecutf`. -/
noncomputable def logCEncode (p : LogCParams) (value : ℝ) : ℝ :=
  if (p.cut : ℝ) < value then
    (p.c : ℝ) * Real.logb 10 ((p.a : ℝ) * value + (p.b : ℝ)) + (p.d : ℝ)
  else
    (p.ecutf : ℝ)

/-- The decompanding branch of
`__alexa_wide_gamut_rgb_inverse_transfer_function` (source line 216):
`(math.pow(10, (value - d) / c) - b) / a if value > ecutf else (value - f) / e`. -/
noncomputable def logCDecode (p : LogCParams) (value : ℝ) : ℝ :=
  if (p.ecutf : ℝ) < value then
    ((10 : ℝ) ^ ((value - (p.d : ℝ)) / (p.c : ℝ)) - (p.b : ℝ)) / (p.a : ℝ)
  else
    (value - (p.f : ℝ)) / (p.e : ℝ)

/-- `__alexa_wide_gamut_rgb_transfer_function` (source lines 176-194):
coefficient lookup followed by the companding branch. -/
noncomputable def alexa_wide_gamut_rgb_transfer_function (value : ℝ)
    (firmware : String := "SUP 3.x")
    (method : String := "Linear Scene Exposure Factor") (EI : ℕ := 800) :
    Except PyError ℝ :=
  (logCConversionLookup firmware method EI).map (fun p => logCEncode p value)

/-- `__alexa_wide_gamut_rgb_inverse_transfer_function` (source lines 197-216):
coefficient lookup followed by the decompanding branch. -/
noncomputable def alexa_wide_gamut_rgb_inverse_transfer_function (value : ℝ)
    (firmware : String := "SUP 3.x")
    (method : String := "Linear Scene Exposure Factor") (EI : ℕ := 800) :
    Except PyError ℝ :=
  (logCConversionLookup firmware method EI).map (fun p => logCDecode p value)

/-- A chromaticity coordinate `(x, y)`, embedding a 2-vector of Python floats. -/
structure Vec2 where
  x : ℚ
  y : ℚ
deriving DecidableEq

/-- A tristimulus vector `(X, Y, Z)`. -/
structure Vec3 where
  x : ℚ
  y : ℚ
  z : ℚ
deriving DecidableEq

/-- A 3x2 primaries matrix: one chromaticity row per primary (R, G, B). -/
structure Mat32 where
  r0 : Vec2
  r1 : Vec2
  r2 : Vec2
deriving DecidableEq

/-- A 3x3 matrix of Python floats, embedded entrywise as exact rationals. -/
structure Mat3 where
  m00 : ℚ
  m01 : ℚ
  m02 : ℚ
  m10 : ℚ
  m11 : ℚ
  m12 : ℚ
  m20 : ℚ
  m21 : ℚ
  m22 : ℚ
deriving DecidableEq

/-- Matrix product, embedding `numpy` 3x3 matrix multiplication. -/
def Mat3.mul (A B : Mat3) : Mat3 :=
  ⟨A.m00 * B.m00 + A.m01 * B.m10 + A.m02 * B.m20,
   A.m00 * B.m01 + A.m01 * B.m11 + A.m02 * B.m21,
   A.m00 * B.m02 + A.m01 * B.m12 + A.m02 * B.m22,
   A.m10 * B.m00 + A.m11 * B.m10 + A.m12 * B.m20,
   A.m10 * B.m01 + A.m11 * B.m11 + A.m12 * B.m21,
   A.m10 * B.m02 + A.m11 * B.m12 + A.m12 * B.m22,
   A.m20 * B.m00 + A.m21 * B.m10 + A.m22 * B.m20,
   A.m20 * B.m01 + A.m21 * B.m11 + A.m22 * B.m21,
   A.m20 * B.m02 + A.m21 * B.m12 + A.m22 * B.m22⟩

/-- Matrix-vector product. -/
def Mat3.mulVec (A : Mat3) (v : Vec3) : Vec3 :=
  ⟨A.m00 * v.x + A.m01 * v.y + A.m02 * v.z,
   A.m10 * v.x + A.m11 * v.y + A.m12 * v.z,
   A.m20 * v.x + A.m21 * v.y + A.m22 * v.z⟩

/-- The identity matrix. -/
def Mat3.identity : Mat3 := ⟨1, 0, 0, 0, 1, 0, 0, 0, 1⟩

/-- Determinant of a 3x3 matrix. -/
def Mat3.det (A : Mat3) : ℚ :=
  A.m00 * (A.m11 * A.m22 - A.m12 * A.m21)
    - A.m01 * (A.m10 * A.m22 - A.m12 * A.m20)
    + A.m02 * (A.m10 * A.m21 - A.m11 * A.m20)

/-- Exact 3x3 matrix inverse by cofactors, embedding `numpy.matrix.getI` /
`numpy.linalg.inv` with the float arithmetic idealised as exact rational
arithmetic. -/
def Mat3.inv (A : Mat3) : Mat3 :=
  ⟨(A.m11 * A.m22 - A.m12 * A.m21) / A.det,
   (A.m02 * A.m21 - A.m01 * A.m22) / A.det,
   (A.m01 * A.m12 - A.m02 * A.m11) / A.det,
   (A.m12 * A.m20 - A.m10 * A.m22) / A.det,
   (A.m00 * A.m22 - A.m02 * A.m20) / A.det,
   (A.m02 * A.m10 - A.m00 * A.m12) / A.det,
   (A.m10 * A.m21 - A.m11 * A.m20) / A.det,
   (A.m01 * A.m20 - A.m00 * A.m21) / A.det,
   (A.m00 * A.m11 - A.m01 * A.m10) / A.det⟩

/-- `A` and `B` agree entrywise within tolerance `t`. -/
def entriesWithin (A B : Mat3) (t : ℚ) : Prop :=
  |A.m00 - B.m00| ≤ t ∧ |A.m01 - B.m01| ≤ t ∧ |A.m02 - B.m02| ≤ t ∧
  |A.m10 - B.m10| ≤ t ∧ |A.m11 - B.m11| ≤ t ∧ |A.m12 - B.m12| ≤ t ∧
  |A.m20 - B.m20| ≤ t ∧ |A.m21 - B.m21| ≤ t ∧ |A.m22 - B.m22| ≤ t

instance (A B : Mat3) (t : ℚ) : Decidable (entriesWithin A B t) := by
  unfold entriesWithin; infer_instance

/-- The `(X, Y, Z)` projection of a chromaticity coordinate at unit luminance:
`(x / y, 1, (1 - x - y) / y)`. -/
def xyToXYZ (v : Vec2) : Vec3 :=
  ⟨v.x / v.y, 1, (1 - v.x - v.y) / v.y⟩

/-- Modelled from the spec: `normalised_primary_matrix` (imported from
`colour.models.rgb` by `blackmagic.py`; its definition is not under `src/`).
Per the spec's construction contract, it derives the RGB-to-XYZ matrix from the
primaries and the whitepoint by solving for a diagonal scaling of the primary
chromaticities' XYZ projections such that the whitepoint maps to unit
luminance. -/
def normalised_primary_matrix (primaries : Mat32) (whitepoint : Vec2) : Mat3 :=
  let P : Mat3 :=
    ⟨(xyToXYZ primaries.r0).x, (xyToXYZ primaries.r1).x, (xyToXYZ primaries.r2).x,
     (xyToXYZ primaries.r0).y, (xyToXYZ primaries.r1).y, (xyToXYZ primaries.r2).y,
     (xyToXYZ primaries.r0).z, (xyToXYZ primaries.r1).z, (xyToXYZ primaries.r2).z⟩
  let S : Vec3 := P.inv.mulVec (xyToXYZ whitepoint)
  ⟨P.m00 * S.x, P.m01 * S.y, P.m02 * S.z,
   P.m10 * S.x, P.m11 * S.y, P.m12 * S.z,
   P.m20 * S.x, P.m21 * S.y, P.m22 * S.z⟩

/-- The data fields of a colourspace record (`Colourspace` /
`RGB_Colourspace` in the source).  The encoding and decoding transfer
functions attached by the source constructors are real-valued and are
modelled separately (`alexa_wide_gamut_rgb_transfer_function` and its
inverse); no claim needs them as record fields. -/
structure ColourspaceData where
  name : String
  primaries : Mat32
  whitepoint : Vec2
  toXYZMatrix : Mat3
  fromXYZMatrix : Mat3
deriving DecidableEq

/-- `ALEXA_WIDE_GAMUT_RGB_PRIMARIES` (source lines 162-164). -/
def ALEXA_WIDE_GAMUT_RGB_PRIMARIES : Mat32 :=
  ⟨⟨0.6840, 0.3130⟩, ⟨0.2210, 0.8480⟩, ⟨0.0861, -0.1020⟩⟩

/-- Modelled from the spec: the shared illuminant table entry for illuminant
`"D65"` under `"CIE 1931 2 Degree Standard Observer"` (the tables
`colour.dataset.illuminants.chromaticity_coordinates.ILLUMINANTS` and
`colour.colorimetry.CCS_ILLUMINANTS` are not under `src/`); the CIE D65
two-degree chromaticity coordinate. -/
def D65_TWO_DEGREE : Vec2 := ⟨0.3127, 0.3290⟩

/-- `ALEXA_WIDE_GAMUT_RGB_WHITEPOINT` (source lines 166-167), via the
modelled illuminant table. -/
def ALEXA_WIDE_GAMUT_RGB_WHITEPOINT : Vec2 := D65_TWO_DEGREE

/-- `ALEXA_WIDE_GAMUT_RGB_TO_XYZ_MATRIX` (source lines 169-171): a literal
reference matrix. -/
def ALEXA_WIDE_GAMUT_RGB_TO_XYZ_MATRIX : Mat3 :=
  ⟨0.638008, 0.214704, 0.097744,
   0.291954, 0.823841, -0.115795,
   0.002798, -0.067034, 1.153294⟩

/-- `XYZ_TO_ALEXA_WIDE_GAMUT_RGB_MATRIX` (source line 173): `getI()` of the
reference matrix. -/
def XYZ_TO_ALEXA_WIDE_GAMUT_RGB_MATRIX : Mat3 :=
  ALEXA_WIDE_GAMUT_RGB_TO_XYZ_MATRIX.inv

/-- `ALEXA_WIDE_GAMUT_RGB_COLOURSPACE` (source lines 223-229), data fields. -/
def ALEXA_WIDE_GAMUT_RGB_COLOURSPACE : ColourspaceData :=
  ⟨"ALEXA Wide Gamut RGB",
   ALEXA_WIDE_GAMUT_RGB_PRIMARIES,
   ALEXA_WIDE_GAMUT_RGB_WHITEPOINT,
   ALEXA_WIDE_GAMUT_RGB_TO_XYZ_MATRIX,
   XYZ_TO_ALEXA_WIDE_GAMUT_RGB_MATRIX⟩

/-- `BMD_FILM_V1_PRIMARIES` (blackmagic.py lines 64-68). -/
def BMD_FILM_V1_PRIMARIES : Mat32 :=
  ⟨⟨0.9173, 0.2502⟩, ⟨0.2833, 1.7072⟩, ⟨0.0856, -0.0708⟩⟩

/-- `BMD_FILM_V1_WHITEPOINT` (blackmagic.py line 82). -/
def BMD_FILM_V1_WHITEPOINT : Vec2 := ⟨0.3135, 0.3305⟩

/-- `BMD_FILM_V1_TO_XYZ_MATRIX` (blackmagic.py lines 89-90). -/
def BMD_FILM_V1_TO_XYZ_MATRIX : Mat3 :=
  normalised_primary_matrix BMD_FILM_V1_PRIMARIES BMD_FILM_V1_WHITEPOINT

/-- `XYZ_TO_BMD_FILM_V1_MATRIX` (blackmagic.py lines 97-98). -/
def XYZ_TO_BMD_FILM_V1_MATRIX : Mat3 := BMD_FILM_V1_TO_XYZ_MATRIX.inv

/-- `RGB_COLOURSPACE_BMD_FILM_V1` (blackmagic.py lines 105-114), data fields. -/
def RGB_COLOURSPACE_BMD_FILM_V1 : ColourspaceData :=
  ⟨"BMD Film V1", BMD_FILM_V1_PRIMARIES, BMD_FILM_V1_WHITEPOINT,
   BMD_FILM_V1_TO_XYZ_MATRIX, XYZ_TO_BMD_FILM_V1_MATRIX⟩

/-- `BMD_4K_FILM_V1_PRIMARIES` (blackmagic.py lines 126-130). -/
def BMD_4K_FILM_V1_PRIMARIES : Mat32 :=
  ⟨⟨0.7422, 0.2859⟩, ⟨0.4140, 1.3035⟩, ⟨0.0342, -0.0833⟩⟩

/-- `BMD_4K_FILM_V1_WHITEPOINT` (blackmagic.py line 144). -/
def BMD_4K_FILM_V1_WHITEPOINT : Vec2 := ⟨0.3135, 0.3305⟩

/-- `BMD_4K_FILM_V1_TO_XYZ_MATRIX` (blackmagic.py lines 151-152). -/
def BMD_4K_FILM_V1_TO_XYZ_MATRIX : Mat3 :=
  normalised_primary_matrix BMD_4K_FILM_V1_PRIMARIES BMD_4K_FILM_V1_WHITEPOINT

/-- `XYZ_TO_BMD_4K_FILM_V1_MATRIX` (blackmagic.py lines 159-160). -/
def XYZ_TO_BMD_4K_FILM_V1_MATRIX : Mat3 := BMD_4K_FILM_V1_TO_XYZ_MATRIX.inv

/-- `RGB_COLOURSPACE_BMD_4K_FILM_V1` (blackmagic.py lines 167-176), data
fields. -/
def RGB_COLOURSPACE_BMD_4K_FILM_V1 : ColourspaceData :=
  ⟨"BMD 4K Film V1", BMD_4K_FILM_V1_PRIMARIES, BMD_4K_FILM_V1_WHITEPOINT,
   BMD_4K_FILM_V1_TO_XYZ_MATRIX, XYZ_TO_BMD_4K_FILM_V1_MATRIX⟩

/-- `BMD_4K_FILM_V3_PRIMARIES` (blackmagic.py lines 188-192). -/
def BMD_4K_FILM_V3_PRIMARIES : Mat32 :=
  ⟨⟨1.0625, 0.3948⟩, ⟨0.3689, 0.7775⟩, ⟨0.0956, -0.0332⟩⟩

/-- `BMD_4K_FILM_V3_WHITEPOINT` (blackmagic.py line 206). -/
def BMD_4K_FILM_V3_WHITEPOINT : Vec2 := ⟨0.3135, 0.3305⟩

/-- `BMD_4K_FILM_V3_TO_XYZ_MATRIX` (blackmagic.py lines 213-214). -/
def BMD_4K_FILM_V3_TO_XYZ_MATRIX : Mat3 :=
  normalised_primary_matrix BMD_4K_FILM_V3_PRIMARIES BMD_4K_FILM_V3_WHITEPOINT

/-- `XYZ_TO_BMD_4K_FILM_V3_MATRIX` (blackmagic.py lines 221-222). -/
def XYZ_TO_BMD_4K_FILM_V3_MATRIX : Mat3 := BMD_4K_FILM_V3_TO_XYZ_MATRIX.inv

/-- `RGB_COLOURSPACE_BMD_4K_FILM_V3` (blackmagic.py lines 229-238), data
fields. -/
def RGB_COLOURSPACE_BMD_4K_FILM_V3 : ColourspaceData :=
  ⟨"BMD 4K Film V3", BMD_4K_FILM_V3_PRIMARIES, BMD_4K_FILM_V3_WHITEPOINT,
   BMD_4K_FILM_V3_TO_XYZ_MATRIX, XYZ_TO_BMD_4K_FILM_V3_MATRIX⟩

/-- `BMD_46K_FILM_V1_PRIMARIES` (blackmagic.py lines 250-254). -/
def BMD_46K_FILM_V1_PRIMARIES : Mat32 :=
  ⟨⟨0.9175, 0.2983⟩, ⟨0.2983, 1.2835⟩, ⟨0.0756, -0.0860⟩⟩

/-- `BMD_46K_FILM_V1_WHITEPOINT` (blackmagic.py lines 268-270): the `"D65"`
entry of the modelled illuminant table. -/
def BMD_46K_FILM_V1_WHITEPOINT : Vec2 := D65_TWO_DEGREE

/-- `BMD_46K_FILM_V1_TO_XYZ_MATRIX` (blackmagic.py lines 277-278). -/
def BMD_46K_FILM_V1_TO_XYZ_MATRIX : Mat3 :=
  normalised_primary_matrix BMD_46K_FILM_V1_PRIMARIES BMD_46K_FILM_V1_WHITEPOINT

/-- `XYZ_TO_BMD_46K_FILM_V1_MATRIX` (blackmagic.py lines 285-286). -/
def XYZ_TO_BMD_46K_FILM_V1_MATRIX : Mat3 := BMD_46K_FILM_V1_TO_XYZ_MATRIX.inv

/-- `RGB_COLOURSPACE_BMD_46K_FILM_V1` (blackmagic.py lines 293-302), data
fields. -/
def RGB_COLOURSPACE_BMD_46K_FILM_V1 : ColourspaceData :=
  ⟨"BMD 46K Film V1", BMD_46K_FILM_V1_PRIMARIES, BMD_46K_FILM_V1_WHITEPOINT,
   BMD_46K_FILM_V1_TO_XYZ_MATRIX, XYZ_TO_BMD_46K_FILM_V1_MATRIX⟩

/-- `BMD_46K_FILM_V3_PRIMARIES` (blackmagic.py lines 314-318). -/
def BMD_46K_FILM_V3_PRIMARIES : Mat32 :=
  ⟨⟨0.8608, 0.3689⟩, ⟨0.3282, 0.6156⟩, ⟨0.0783, -0.0233⟩⟩

/-- `BMD_46K_FILM_V3_WHITEPOINT` (blackmagic.py lines 332-334). -/
def BMD_46K_FILM_V3_WHITEPOINT : Vec2 := D65_TWO_DEGREE

/-- `BMD_46K_FILM_V3_TO_XYZ_MATRIX` (blackmagic.py lines 341-342). -/
def BMD_46K_FILM_V3_TO_XYZ_MATRIX : Mat3 :=
  normalised_primary_matrix BMD_46K_FILM_V3_PRIMARIES BMD_46K_FILM_V3_WHITEPOINT

/-- `XYZ_TO_BMD_46K_FILM_V3_MATRIX` (blackmagic.py lines 349-350). -/
def XYZ_TO_BMD_46K_FILM_V3_MATRIX : Mat3 := BMD_46K_FILM_V3_TO_XYZ_MATRIX.inv

/-- `RGB_COLOURSPACE_BMD_46K_FILM_V3` (blackmagic.py lines 357-366), data
fields. -/
def RGB_COLOURSPACE_BMD_46K_FILM_V3 : ColourspaceData :=
  ⟨"BMD 46K Film V3", BMD_46K_FILM_V3_PRIMARIES, BMD_46K_FILM_V3_WHITEPOINT,
   BMD_46K_FILM_V3_TO_XYZ_MATRIX, XYZ_TO_BMD_46K_FILM_V3_MATRIX⟩

/-- `BMD_WIDE_GAMUT_V4_PRIMARIES` (blackmagic.py lines 378-382). -/
def BMD_WIDE_GAMUT_V4_PRIMARIES : Mat32 :=
  ⟨⟨0.7177, 0.3171⟩, ⟨0.2280, 0.8616⟩, ⟨0.1006, -0.0820⟩⟩

/-- `BMD_WIDE_GAMUT_V4_WHITEPOINT` (blackmagic.py lines 396-397). -/
def BMD_WIDE_GAMUT_V4_WHITEPOINT : Vec2 := D65_TWO_DEGREE

/-- `BMD_WIDE_GAMUT_V4_TO_XYZ_MATRIX` (blackmagic.py lines 404-405). -/
def BMD_WIDE_GAMUT_V4_TO_XYZ_MATRIX : Mat3 :=
  normalised_primary_matrix BMD_WIDE_GAMUT_V4_PRIMARIES BMD_WIDE_GAMUT_V4_WHITEPOINT

/-- `XYZ_TO_BMD_WIDE_GAMUT_V4_MATRIX` (blackmagic.py lines 412-413). -/
def XYZ_TO_BMD_WIDE_GAMUT_V4_MATRIX : Mat3 := BMD_WIDE_GAMUT_V4_TO_XYZ_MATRIX.inv

/-- `RGB_COLOURSPACE_BMD_WIDE_GAMUT_V4` (blackmagic.py lines 420-429), data
fields. -/
def RGB_COLOURSPACE_BMD_WIDE_GAMUT_V4 : ColourspaceData :=
  ⟨"BMD Wide Gamut V4", BMD_WIDE_GAMUT_V4_PRIMARIES, BMD_WIDE_GAMUT_V4_WHITEPOINT,
   BMD_WIDE_GAMUT_V4_TO_XYZ_MATRIX, XYZ_TO_BMD_WIDE_GAMUT_V4_MATRIX⟩

/-- Modelled from the spec: the colourspace registry (section 4.2), populated
at load time with the colourspaces the two source modules define. -/
def COLOURSPACE_REGISTRY : List ColourspaceData :=
  [ALEXA_WIDE_GAMUT_RGB_COLOURSPACE,
   RGB_COLOURSPACE_BMD_FILM_V1,
   RGB_COLOURSPACE_BMD_4K_FILM_V1,
   RGB_COLOURSPACE_BMD_4K_FILM_V3,
   RGB_COLOURSPACE_BMD_46K_FILM_V1,
   RGB_COLOURSPACE_BMD_46K_FILM_V3,
   RGB_COLOURSPACE_BMD_WIDE_GAMUT_V4]

/-- Modelled from the spec: the registry operation `get(name)` (section 4.2),
returning the named colourspace when present. -/
def registryGet (name : String) : Option ColourspaceData :=
  COLOURSPACE_REGISTRY.find? (fun cs => decide (cs.name = name))

/-- The coefficient tuples actually reachable through the constructed
conversion mapping: because the duplicated firmware key leaves only the second
`"SUP 3.x"` block live, these are exactly its two methods' entries. -/
def reachableLogCParams : List LogCParams :=
  supThreeSecondNSS.map Prod.snd ++ supThreeSecondLSEF.map Prod.snd

lemma dictGet_mem {κ α : Type} [DecidableEq κ] {l : List (κ × α)} {k : κ} {v : α}
    (h : dictGet l k = some v) : (k, v) ∈ l := by
  unfold dictGet at h
  cases hf : l.reverse.find? (fun e => decide (e.1 = k)) with
  | none => rw [hf] at h; simp at h
  | some e =>
    rw [hf] at h
    simp only [Option.map_some', Option.some.injEq] at h
    have hm := List.mem_of_find?_eq_some hf
    have hp := List.find?_some hf
    simp only [decide_eq_true_eq] at hp
    rw [List.mem_reverse] at hm
    obtain ⟨k', v'⟩ := e
    rw [← hp, ← h]
    exact hm

/-- Evaluation of the firmware-level `dict.get`: the duplicated key
`"SUP 3.x"` leaves only the second block reachable, and no other firmware key
exists. -/
lemma conversionData_get (fw : String) :
    dictGet ALEXA_LOG_C_CURVE_CONVERSION_DATA fw =
      if fw = "SUP 3.x" then some supThreeSecondBlock else none := by
  by_cases h : fw = "SUP 3.x" <;>
    simp [dictGet, ALEXA_LOG_C_CURVE_CONVERSION_DATA, List.find?, h, eq_comm]

lemma lookup_ok_mem {fw m : String} {ei : ℕ} {p : LogCParams}
    (h : logCConversionLookup fw m ei = .ok p) : p ∈ reachableLogCParams := by
  unfold logCConversionLookup at h
  rw [conversionData_get] at h
  by_cases hfw : fw = "SUP 3.x"
  · rw [if_pos hfw] at h
    cases hm : dictGet supThreeSecondBlock m with
    | none => simp [hm] at h
    | some eis =>
      simp only [hm] at h
      cases hei : dictGet eis ei with
      | none => simp [hei] at h
      | some q =>
        simp only [hei, Except.ok.injEq] at h
        subst h
        have h1 := dictGet_mem hm
        have h2 := dictGet_mem hei
        simp only [supThreeSecondBlock, List.mem_cons, Prod.mk.injEq,
          List.not_mem_nil, or_false] at h1
        rcases h1 with ⟨-, rfl⟩ | ⟨-, rfl⟩
        · exact List.mem_append_left _ (List.mem_map_of_mem _ h2)
        · exact List.mem_append_right _ (List.mem_map_of_mem _ h2)
  · rw [if_neg hfw] at h; cases h

/-- The exact cofactor inverse is a left inverse whenever the determinant is
nonzero. -/
lemma Mat3.inv_mul_self (A : Mat3) (h : A.det ≠ 0) : A.inv.mul A = Mat3.identity := by
  obtain ⟨a00, a01, a02, a10, a11, a12, a20, a21, a22⟩ := A
  simp only [Mat3.det] at h
  simp only [Mat3.mul, Mat3.inv, Mat3.identity, Mat3.det, Mat3.mk.injEq]
  refine ⟨?_, ?_, ?_, ?_, ?_, ?_, ?_, ?_, ?_⟩ <;> field_simp <;> ring

lemma entriesWithin_of_eq {A B : Mat3} {t : ℚ} (h : A = B) (ht : 0 ≤ t) :
    entriesWithin A B t := by
  subst h
  simp only [entriesWithin, sub_self, abs_zero, and_self]
  exact ht

/-- Round trip of the conversion curve above the crossover: under mild
positivity conditions on the coefficients (checked below for every reachable
tuple), decoding an encoded value recovers the value exactly in real
arithmetic. -/
lemma logC_decode_encode (p : LogCParams) (x : ℚ) (ha : 0 < p.a) (hc : 0 < p.c)
    (hcut : p.cut < x) (harg : 1 / 10 ≤ p.a * x + p.b) (hd : p.ecutf < p.d - p.c) :
    logCDecode p (logCEncode p (x : ℝ)) = (x : ℝ) := by
  have haR : (0 : ℝ) < (p.a : ℝ) := by exact_mod_cast ha
  have hcR : (0 : ℝ) < (p.c : ℝ) := by exact_mod_cast hc
  have hargR : (1 / 10 : ℝ) ≤ (p.a : ℝ) * (x : ℝ) + (p.b : ℝ) := by
    have h9 : ((1 / 10 : ℚ) : ℝ) ≤ ((p.a * x + p.b : ℚ) : ℝ) := Rat.cast_le.mpr harg
    push_cast at h9
    exact h9
  have hy : (0 : ℝ) < (p.a : ℝ) * (x : ℝ) + (p.b : ℝ) := lt_of_lt_of_le (by norm_num) hargR
  have henc : logCEncode p (x : ℝ) =
      (p.c : ℝ) * Real.logb 10 ((p.a : ℝ) * (x : ℝ) + (p.b : ℝ)) + (p.d : ℝ) := by
    unfold logCEncode
    rw [if_pos (by exact_mod_cast hcut)]
  have h10 : Real.logb 10 (1 / 10) = -1 := by
    rw [one_div, Real.logb_inv, Real.logb_self_eq_one (by norm_num)]
  have hlogb : (-1 : ℝ) ≤ Real.logb 10 ((p.a : ℝ) * (x : ℝ) + (p.b : ℝ)) := by
    calc (-1 : ℝ) = Real.logb 10 (1 / 10) := h10.symm
    _ ≤ _ := Real.logb_le_logb_of_le (by norm_num) (by norm_num) hargR
  have hdR : (p.ecutf : ℝ) < (p.d : ℝ) - (p.c : ℝ) := by exact_mod_cast hd
  have hmul : (p.c : ℝ) * (-1) ≤ (p.c : ℝ) * Real.logb 10 ((p.a : ℝ) * (x : ℝ) + (p.b : ℝ)) :=
    mul_le_mul_of_nonneg_left hlogb (le_of_lt hcR)
  have hgt : (p.ecutf : ℝ) < logCEncode p (x : ℝ) := by
    rw [henc]; nlinarith [hmul, hdR]
  unfold logCDecode
  rw [if_pos hgt, henc]
  have hexp : ((p.c : ℝ) * Real.logb 10 ((p.a : ℝ) * (x : ℝ) + (p.b : ℝ)) + (p.d : ℝ) - (p.d : ℝ))
      / (p.c : ℝ) = Real.logb 10 ((p.a : ℝ) * (x : ℝ) + (p.b : ℝ)) := by
    field_simp
  rw [hexp, Real.rpow_logb (by norm_num) (by norm_num) hy]
  field_simp

/-- Every tuple reachable through the conversion mapping satisfies the side
conditions of `logC_decode_encode` at the representative values
`0.18`, `1` and `4`. -/
lemma reachable_side_conditions :
    ∀ p ∈ reachableLogCParams, ∀ x ∈ ([0.18, 1, 4] : List ℚ),
      0 < p.a ∧ 0 < p.c ∧ p.cut < x ∧ 1 / 10 ≤ p.a * x + p.b ∧ p.ecutf < p.d - p.c := by
  intro p hp x hx
  simp only [reachableLogCParams, supThreeSecondNSS, supThreeSecondLSEF,
    List.map_cons, List.map_nil, List.cons_append, List.nil_append,
    List.mem_cons, List.not_mem_nil, or_false] at hp
  simp only [List.mem_cons, List.not_mem_nil, or_false] at hx
  rcases hx with rfl | rfl | rfl <;>
  rcases hp with rfl | rfl | rfl | rfl | rfl | rfl | rfl | rfl | rfl | rfl | rfl |
    rfl | rfl | rfl | rfl | rfl | rfl | rfl | rfl | rfl | rfl | rfl <;>
  norm_num

/-- Evaluation: the default configuration resolves to the `(800)` entry of the
second block's `"Linear Scene Exposure Factor"` table. -/
lemma lookup_sup3_lsef_800 :
    logCConversionLookup "SUP 3.x" "Linear Scene Exposure Factor" 800 =
      .ok ⟨0.000000, 5.061087, 0.089004, 0.247189, 0.391007, 4.950469, 0.131313, 0.131313⟩ := by
  simp [logCConversionLookup, dictGet, ALEXA_LOG_C_CURVE_CONVERSION_DATA,
    supThreeSecondBlock, supThreeSecondLSEF, List.find?]

/-- Evaluation: the `("SUP 3.x", "Normalised Sensor Signal", 160)` entry of the
constructed mapping. -/
lemma lookup_sup3_nss_160 :
    logCConversionLookup "SUP 3.x" "Normalised Sensor Signal" 160 =
      .ok ⟨0.003907, 36.439829, -0.053366, 0.269035, 0.391007, 45.593473, -0.069772, 0.10836⟩ := by
  simp [logCConversionLookup, dictGet, ALEXA_LOG_C_CURVE_CONVERSION_DATA,
    supThreeSecondBlock, supThreeSecondNSS, List.find?]

/-- Evaluation: the firmware `"SUP 2.x"` is absent from the constructed
mapping, so the chained lookup fails with `AttributeError`. -/
lemma lookup_sup2_lsef_800 :
    logCConversionLookup "SUP 2.x" "Linear Scene Exposure Factor" 800 =
      .error .attributeError := by
  simp [logCConversionLookup, dictGet, ALEXA_LOG_C_CURVE_CONVERSION_DATA, List.find?]

/-- C1: the claim pins the coefficients of
`("SUP 3.x", "Linear Scene Exposure Factor", 800)` to
`(0.010591, 5.555556, 0.052272, 0.247190, 0.385537, 5.367655, 0.092809,
0.149658)`.  Because the dict literal repeats the `"SUP 3.x"` key, the second
block shadows the first and the lookup actually yields
`(0.000000, 5.061087, 0.089004, 0.247189, 0.391007, 4.950469, 0.131313,
0.131313)`, a different tuple; with the claimed coefficients the encoding of
`0.18` would indeed equal `0.247190 * log10(5.555556 * 0.18 + 0.052272) +
0.385537`, so the divergence is exactly the shadowed lookup. -/
theorem logc_lookup_sup3_shadowed :
    logCConversionLookup "SUP 3.x" "Linear Scene Exposure Factor" 800 =
      .ok ⟨0.000000, 5.061087, 0.089004, 0.247189, 0.391007, 4.950469, 0.131313, 0.131313⟩
  ∧ (⟨0.000000, 5.061087, 0.089004, 0.247189, 0.391007, 4.950469, 0.131313, 0.131313⟩ : LogCParams) ≠
      ⟨0.010591, 5.555556, 0.052272, 0.247190, 0.385537, 5.367655, 0.092809, 0.149658⟩
  ∧ logCEncode ⟨0.010591, 5.555556, 0.052272, 0.247190, 0.385537, 5.367655, 0.092809, 0.149658⟩ 0.18 =
      ((0.247190 : ℚ) : ℝ) * Real.logb 10 (((5.555556 : ℚ) : ℝ) * 0.18 + ((0.052272 : ℚ) : ℝ))
        + ((0.385537 : ℚ) : ℝ) := by
  refine ⟨lookup_sup3_lsef_800, ?_, ?_⟩
  · intro h
    have := congrArg LogCParams.cut h
    norm_num at this
  · unfold logCEncode
    rw [if_pos]
    push_cast
    norm_num

/-- C2: the dict literal `ALEXA_LOG_C_CURVE_CONVERSION_DATA` writes the
firmware key `"SUP 3.x"` twice, so the constructed mapping contains exactly
one firmware key, bound to the second block; no `"SUP 2.x"` entry exists, and
every call of the transfer function or inverse transfer function with
firmware `"SUP 2.x"` fails at the chained `.get` lookup (with
`AttributeError`) rather than returning a companded value. -/
theorem alexa_conversion_data_firmware_shadowing :
    (∀ fw, (dictGet ALEXA_LOG_C_CURVE_CONVERSION_DATA fw).isSome ↔ fw = "SUP 3.x")
  ∧ dictGet ALEXA_LOG_C_CURVE_CONVERSION_DATA "SUP 3.x" = some supThreeSecondBlock
  ∧ dictGet ALEXA_LOG_C_CURVE_CONVERSION_DATA "SUP 2.x" = none
  ∧ (∀ (m : String) (ei : ℕ) (v : ℝ),
      alexa_wide_gamut_rgb_transfer_function v "SUP 2.x" m ei = .error .attributeError
    ∧ alexa_wide_gamut_rgb_inverse_transfer_function v "SUP 2.x" m ei = .error .attributeError) := by
  refine ⟨?_, ?_, ?_, ?_⟩
  · intro fw
    rw [conversionData_get]
    by_cases h : fw = "SUP 3.x" <;> simp [h]
  · rw [conversionData_get]; simp
  · rw [conversionData_get]; simp
  · intro m ei v
    constructor <;>
      simp [alexa_wide_gamut_rgb_transfer_function,
        alexa_wide_gamut_rgb_inverse_transfer_function,
        logCConversionLookup, conversionData_get, Except.map]

/-- C3 counterexample: for the table entry
`("SUP 3.x", "Normalised Sensor Signal", 160)` and the representative value
`x = 0.001`, which lies below the crossover `cut = 0.003907`, the round trip
`decode(encode(x))` returns `(ecutf - f) / e ≈ 0.0039`, which differs from
`x` by more than `10⁻³`: the claimed approximate identity fails at and below
the cut. -/
theorem logc_roundtrip_fails_below_cut :
    logCConversionLookup "SUP 3.x" "Normalised Sensor Signal" 160 =
      .ok ⟨0.003907, 36.439829, -0.053366, 0.269035, 0.391007, 45.593473, -0.069772, 0.10836⟩
  ∧ |logCDecode ⟨0.003907, 36.439829, -0.053366, 0.269035, 0.391007, 45.593473, -0.069772, 0.10836⟩
      (logCEncode ⟨0.003907, 36.439829, -0.053366, 0.269035, 0.391007, 45.593473, -0.069772, 0.10836⟩
        ((0.001 : ℚ) : ℝ)) - ((0.001 : ℚ) : ℝ)| > 1 / 1000 := by
  refine ⟨lookup_sup3_nss_160, ?_⟩
  have henc : logCEncode ⟨0.003907, 36.439829, -0.053366, 0.269035, 0.391007, 45.593473, -0.069772, 0.10836⟩
      ((0.001 : ℚ) : ℝ) = ((0.10836 : ℚ) : ℝ) := by
    unfold logCEncode
    rw [if_neg]
    push_cast
    norm_num
  rw [henc]
  have hdec : logCDecode ⟨0.003907, 36.439829, -0.053366, 0.269035, 0.391007, 45.593473, -0.069772, 0.10836⟩
      ((0.10836 : ℚ) : ℝ) = (((0.10836 : ℚ) : ℝ) - ((-0.069772 : ℚ) : ℝ)) / ((45.593473 : ℚ) : ℝ) := by
    unfold logCDecode
    rw [if_neg (lt_irrefl _)]
  rw [hdec]
  have hpos : (((0.10836 : ℚ) : ℝ) - ((-0.069772 : ℚ) : ℝ)) / ((45.593473 : ℚ) : ℝ)
      - ((0.001 : ℚ) : ℝ) > 1 / 1000 := by
    push_cast
    norm_num
  exact lt_of_lt_of_le hpos (le_abs_self _)

/-- C3 (amended): for every `(firmware, method, exposure index)` entry of the
constructed coefficient table and every representative value in
`{0.18, 1, 4}` — the claimed representatives that lie strictly above every
crossover cut — `decode(encode(x)) = x` holds exactly in real arithmetic.
(For representatives at or below the cut, such as `0.001`, the round trip
instead returns the crossover point `(ecutf - f) / e`; see the
counterexample.) -/
theorem logc_roundtrip_on_table_above_cut :
    ∀ (fw m : String) (ei : ℕ) (p : LogCParams),
      logCConversionLookup fw m ei = .ok p →
      ∀ x ∈ ([0.18, 1, 4] : List ℚ), logCDecode p (logCEncode p (x : ℝ)) = (x : ℝ) := by
  intro fw m ei p h x hx
  obtain ⟨ha, hc, hcut, harg, hd⟩ := reachable_side_conditions p (lookup_ok_mem h) x hx
  exact logC_decode_encode p x ha hc hcut harg hd

/-- C3 witness: the round trip at the default configuration's tuple and
`x = 0.18`. -/
theorem logc_roundtrip_witness :
    logCDecode ⟨0.000000, 5.061087, 0.089004, 0.247189, 0.391007, 4.950469, 0.131313, 0.131313⟩
        (logCEncode ⟨0.000000, 5.061087, 0.089004, 0.247189, 0.391007, 4.950469, 0.131313, 0.131313⟩
          ((0.18 : ℚ) : ℝ)) = ((0.18 : ℚ) : ℝ) :=
  logc_roundtrip_on_table_above_cut "SUP 3.x" "Linear Scene Exposure Factor" 800 _
    lookup_sup3_lsef_800 0.18 (by simp)

/-- C4 counterexample: with firmware `"SUP 2.x"` (absent from the constructed
table) the lookup underlying both operations fails with `AttributeError`,
which is not a `LookupError` kind, refuting the claimed failure mode. -/
theorem lookup_failure_not_lookup_error :
    logCConversionLookup "SUP 2.x" "Linear Scene Exposure Factor" 800 = .error .attributeError
  ∧ PyError.attributeError ≠ PyError.lookupError :=
  ⟨lookup_sup2_lsef_800, by simp⟩

/-- C4 (amended): when the `(firmware, method, exposure index)` combination is
absent, the chained-`.get` lookup underlying encode and decode fails with
`AttributeError` (missing firmware or method) or `TypeError` (missing
exposure index); it never fails with a `LookupError` kind. -/
theorem logc_lookup_error_kinds :
    ∀ (fw m : String) (ei : ℕ),
      ((∃ e, logCConversionLookup fw m ei = .error e) →
        logCConversionLookup fw m ei = .error .attributeError
      ∨ logCConversionLookup fw m ei = .error .typeError)
    ∧ logCConversionLookup fw m ei ≠ .error .lookupError := by
  intro fw m ei
  unfold logCConversionLookup
  rw [conversionData_get]
  by_cases hfw : fw = "SUP 3.x"
  · rw [if_pos hfw]
    cases hm : dictGet supThreeSecondBlock m with
    | none =>
      simp only [hm]
      exact ⟨fun _ => by simp, by simp⟩
    | some eis =>
      cases hei : dictGet eis ei with
      | none =>
        simp only [hm, hei]
        exact ⟨fun _ => by simp, by simp⟩
      | some q =>
        simp only [hm, hei]
        exact ⟨fun ⟨e, he⟩ => by simp at he, by simp⟩
  · rw [if_neg hfw]
    exact ⟨fun _ => Or.inl rfl, by simp⟩

/-- C4 witness: the failure kind at the concrete absent combination
`("SUP 2.x", "Linear Scene Exposure Factor", 800)`. -/
theorem logc_lookup_error_kinds_witness :
    logCConversionLookup "SUP 2.x" "Linear Scene Exposure Factor" 800 = .error .attributeError
  ∨ logCConversionLookup "SUP 2.x" "Linear Scene Exposure Factor" 800 = .error .typeError :=
  (logc_lookup_error_kinds "SUP 2.x" "Linear Scene Exposure Factor" 800).1
    ⟨.attributeError, lookup_sup2_lsef_800⟩

/-- C5: for every value `v` and every coefficient tuple found by the lookup,
the forward operation returns `c * log10(a * v + b) + d` when `v > cut` and
the constant `ecutf` when `v ≤ cut`. -/
theorem transfer_function_branch_formulas :
    ∀ (fw m : String) (ei : ℕ) (p : LogCParams),
      logCConversionLookup fw m ei = .ok p →
      ∀ v : ℝ,
        ((p.cut : ℝ) < v →
          alexa_wide_gamut_rgb_transfer_function v fw m ei =
            .ok ((p.c : ℝ) * Real.logb 10 ((p.a : ℝ) * v + (p.b : ℝ)) + (p.d : ℝ)))
      ∧ (v ≤ (p.cut : ℝ) →
          alexa_wide_gamut_rgb_transfer_function v fw m ei = .ok ((p.ecutf : ℝ))) := by
  intro fw m ei p h v
  constructor <;> intro hv <;>
    simp only [alexa_wide_gamut_rgb_transfer_function, h, Except.map, logCEncode]
  · rw [if_pos hv]
  · rw [if_neg (not_lt.mpr hv)]

/-- C5 witness: the logarithmic branch at `v = 1` under the default
configuration. -/
theorem transfer_function_branch_formulas_witness :
    alexa_wide_gamut_rgb_transfer_function 1 "SUP 3.x" "Linear Scene Exposure Factor" 800 =
      .ok (((0.247189 : ℚ) : ℝ) * Real.logb 10 (((5.061087 : ℚ) : ℝ) * 1 + ((0.089004 : ℚ) : ℝ))
        + ((0.391007 : ℚ) : ℝ)) :=
  (transfer_function_branch_formulas "SUP 3.x" "Linear Scene Exposure Factor" 800 _
    lookup_sup3_lsef_800 1).1 (by push_cast; norm_num)

/-- C6: for every value `v` and every coefficient tuple found by the lookup,
the inverse operation returns `(10 ^ ((v - d) / c) - b) / a` when `v > ecutf`
and `(v - f) / e` when `v ≤ ecutf`. -/
theorem inverse_transfer_function_branch_formulas :
    ∀ (fw m : String) (ei : ℕ) (p : LogCParams),
      logCConversionLookup fw m ei = .ok p →
      ∀ v : ℝ,
        ((p.ecutf : ℝ) < v →
          alexa_wide_gamut_rgb_inverse_transfer_function v fw m ei =
            .ok (((10 : ℝ) ^ ((v - (p.d : ℝ)) / (p.c : ℝ)) - (p.b : ℝ)) / (p.a : ℝ)))
      ∧ (v ≤ (p.ecutf : ℝ) →
          alexa_wide_gamut_rgb_inverse_transfer_function v fw m ei =
            .ok ((v - (p.f : ℝ)) / (p.e : ℝ))) := by
  intro fw m ei p h v
  constructor <;> intro hv <;>
    simp only [alexa_wide_gamut_rgb_inverse_transfer_function, h, Except.map, logCDecode]
  · rw [if_pos hv]
  · rw [if_neg (not_lt.mpr hv)]

/-- C6 witness: the linear branch at `v = 0` under the default
configuration. -/
theorem inverse_transfer_function_branch_formulas_witness :
    alexa_wide_gamut_rgb_inverse_transfer_function 0 "SUP 3.x" "Linear Scene Exposure Factor" 800 =
      .ok ((0 - ((0.131313 : ℚ) : ℝ)) / ((4.950469 : ℚ) : ℝ)) :=
  (inverse_transfer_function_branch_formulas "SUP 3.x" "Linear Scene Exposure Factor" 800 _
    lookup_sup3_lsef_800 0).2 (by push_cast; norm_num)

/-- C7: for every registered colourspace, the product of the XYZ-to-RGB and
RGB-to-XYZ matrices agrees with the identity entrywise within `10⁻¹⁰` (in the
exact-rational idealisation of the float inverse the product is exactly the
identity). -/
theorem registry_matrices_mutually_inverse :
    ∀ cs ∈ COLOURSPACE_REGISTRY,
      entriesWithin (cs.fromXYZMatrix.mul cs.toXYZMatrix) Mat3.identity (1 / 10 ^ 10) := by
  intro cs hcs
  simp only [COLOURSPACE_REGISTRY, List.mem_cons, List.not_mem_nil, or_false] at hcs
  rcases hcs with rfl | rfl | rfl | rfl | rfl | rfl | rfl
  · exact entriesWithin_of_eq
      (Mat3.inv_mul_self _ (by norm_num [Mat3.det, ALEXA_WIDE_GAMUT_RGB_TO_XYZ_MATRIX]))
      (by norm_num)
  · exact entriesWithin_of_eq
      (Mat3.inv_mul_self _ (by norm_num [Mat3.det, BMD_FILM_V1_TO_XYZ_MATRIX,
        normalised_primary_matrix, Mat3.inv, Mat3.mulVec, xyToXYZ,
        BMD_FILM_V1_PRIMARIES, BMD_FILM_V1_WHITEPOINT]))
      (by norm_num)
  · exact entriesWithin_of_eq
      (Mat3.inv_mul_self _ (by norm_num [Mat3.det, BMD_4K_FILM_V1_TO_XYZ_MATRIX,
        normalised_primary_matrix, Mat3.inv, Mat3.mulVec, xyToXYZ,
        BMD_4K_FILM_V1_PRIMARIES, BMD_4K_FILM_V1_WHITEPOINT]))
      (by norm_num)
  · exact entriesWithin_of_eq
      (Mat3.inv_mul_self _ (by norm_num [Mat3.det, BMD_4K_FILM_V3_TO_XYZ_MATRIX,
        normalised_primary_matrix, Mat3.inv, Mat3.mulVec, xyToXYZ,
        BMD_4K_FILM_V3_PRIMARIES, BMD_4K_FILM_V3_WHITEPOINT]))
      (by norm_num)
  · exact entriesWithin_of_eq
      (Mat3.inv_mul_self _ (by norm_num [Mat3.det, BMD_46K_FILM_V1_TO_XYZ_MATRIX,
        normalised_primary_matrix, Mat3.inv, Mat3.mulVec, xyToXYZ,
        BMD_46K_FILM_V1_PRIMARIES, BMD_46K_FILM_V1_WHITEPOINT, D65_TWO_DEGREE]))
      (by norm_num)
  · exact entriesWithin_of_eq
      (Mat3.inv_mul_self _ (by norm_num [Mat3.det, BMD_46K_FILM_V3_TO_XYZ_MATRIX,
        normalised_primary_matrix, Mat3.inv, Mat3.mulVec, xyToXYZ,
        BMD_46K_FILM_V3_PRIMARIES, BMD_46K_FILM_V3_WHITEPOINT, D65_TWO_DEGREE]))
      (by norm_num)
  · exact entriesWithin_of_eq
      (Mat3.inv_mul_self _ (by norm_num [Mat3.det, BMD_WIDE_GAMUT_V4_TO_XYZ_MATRIX,
        normalised_primary_matrix, Mat3.inv, Mat3.mulVec, xyToXYZ,
        BMD_WIDE_GAMUT_V4_PRIMARIES, BMD_WIDE_GAMUT_V4_WHITEPOINT, D65_TWO_DEGREE]))
      (by norm_num)

/-- C7 witness: the matrix-inverse property at the ALEXA Wide Gamut RGB
colourspace. -/
theorem registry_matrices_mutually_inverse_witness :
    entriesWithin
      (ALEXA_WIDE_GAMUT_RGB_COLOURSPACE.fromXYZMatrix.mul
        ALEXA_WIDE_GAMUT_RGB_COLOURSPACE.toXYZMatrix)
      Mat3.identity (1 / 10 ^ 10) :=
  registry_matrices_mutually_inverse _ (by simp [COLOURSPACE_REGISTRY])

/-- C8: for every registered colourspace, the normalised-primary-matrix
derivation from its primaries and whitepoint reproduces the colourspace's
RGB-to-XYZ matrix entrywise within `5·10⁻⁷` — i.e. to the six decimal places
(at least five significant digits) of the published reference values.  For
the six Blackmagic spaces the matrix is that very derivation; for ALEXA Wide
Gamut RGB the derivation reproduces the hard-coded published matrix. -/
theorem npm_reproduces_reference_matrices :
    ∀ cs ∈ COLOURSPACE_REGISTRY,
      entriesWithin (normalised_primary_matrix cs.primaries cs.whitepoint)
        cs.toXYZMatrix (5 / 10 ^ 7) := by
  intro cs hcs
  simp only [COLOURSPACE_REGISTRY, List.mem_cons, List.not_mem_nil, or_false] at hcs
  rcases hcs with rfl | rfl | rfl | rfl | rfl | rfl | rfl
  · simp only [entriesWithin, abs_le, ALEXA_WIDE_GAMUT_RGB_COLOURSPACE]
    norm_num [normalised_primary_matrix, Mat3.inv, Mat3.det, Mat3.mulVec, xyToXYZ,
      ALEXA_WIDE_GAMUT_RGB_PRIMARIES, ALEXA_WIDE_GAMUT_RGB_WHITEPOINT, D65_TWO_DEGREE,
      ALEXA_WIDE_GAMUT_RGB_TO_XYZ_MATRIX, Mat3.mul]
  · exact entriesWithin_of_eq rfl (by norm_num)
  · exact entriesWithin_of_eq rfl (by norm_num)
  · exact entriesWithin_of_eq rfl (by norm_num)
  · exact entriesWithin_of_eq rfl (by norm_num)
  · exact entriesWithin_of_eq rfl (by norm_num)
  · exact entriesWithin_of_eq rfl (by norm_num)

/-- C8 witness: the derivation reproduces the ALEXA Wide Gamut RGB reference
matrix. -/
theorem npm_reproduces_reference_matrices_witness :
    entriesWithin
      (normalised_primary_matrix ALEXA_WIDE_GAMUT_RGB_COLOURSPACE.primaries
        ALEXA_WIDE_GAMUT_RGB_COLOURSPACE.whitepoint)
      ALEXA_WIDE_GAMUT_RGB_COLOURSPACE.toXYZMatrix (5 / 10 ^ 7) :=
  npm_reproduces_reference_matrices _ (by simp [COLOURSPACE_REGISTRY])

/-- C9: looking up the colourspace named `"ALEXA Wide Gamut RGB"` returns the
ALEXA colourspace, whose red-primary row equals `(0.6840, 0.3130)`. -/
theorem registry_get_alexa_red_primary :
    registryGet "ALEXA Wide Gamut RGB" = some ALEXA_WIDE_GAMUT_RGB_COLOURSPACE
  ∧ ALEXA_WIDE_GAMUT_RGB_COLOURSPACE.primaries.r0 = ⟨0.6840, 0.3130⟩ := by
  constructor
  · simp [registryGet, COLOURSPACE_REGISTRY, List.find?, ALEXA_WIDE_GAMUT_RGB_COLOURSPACE]
  · rfl

/-- C10: for every coefficient tuple found by the lookup, evaluating the
companding branch exactly at the crossover `cut` returns `ecutf` (the `≤`
branch is taken there). -/
theorem encode_at_cut_equals_ecutf :
    ∀ (fw m : String) (ei : ℕ) (p : LogCParams),
      logCConversionLookup fw m ei = .ok p →
      logCEncode p ((p.cut : ℝ)) = (p.ecutf : ℝ) := by
  intro fw m ei p _
  unfold logCEncode
  rw [if_neg (lt_irrefl _)]

/-- C10 witness: the crossover evaluation at the
`("SUP 3.x", "Normalised Sensor Signal", 160)` tuple. -/
theorem encode_at_cut_equals_ecutf_witness :
    logCEncode ⟨0.003907, 36.439829, -0.053366, 0.269035, 0.391007, 45.593473, -0.069772, 0.10836⟩
      (((0.003907 : ℚ) : ℝ)) = ((0.10836 : ℚ) : ℝ) :=
  encode_at_cut_equals_ecutf "SUP 3.x" "Normalised Sensor Signal" 160 _ lookup_sup3_nss_160

end Colour
